import Mathlib

/-!
Verification development for the memory backend: a shallow embedding of the
Storage Gateway (`FirebaseMemoryService`), the Context Aggregation Tool
(`ContextTool`), and the HTTP route layer, together with theorems settling
the specification claims.

Conventions of the embedding:
* JavaScript values that may be `undefined` are `Option`s; JS truthiness of
  strings (`""` is falsy) is made explicit through the `JsSem` helpers.
* An `async` function that may reject is embedded as `Except String α`;
  a JS `try { … } catch (e) { … }` is `jsTry`.
* Outcomes of calls into the external document store (network reads/writes)
  are passed in as `Except`-valued parameters, so theorems quantify over
  every possible behaviour of the store.
-/

deriving instance DecidableEq for Except

namespace JsSem

/-- JS truthiness of a string: the empty string is falsy. -/
def truthyS (s : String) : Bool := s ≠ ""

/-- JS truthiness of a possibly-undefined string. -/
def truthyO : Option String → Bool
  | some s => s ≠ ""
  | none => false

/-- JS `a || b` for a possibly-undefined string with a string fallback. -/
def jsOr (a : Option String) (b : String) : String :=
  match a with
  | some s => if s = "" then b else s
  | none => b

/-- JS `a || b` where both operands are possibly-undefined strings. -/
def jsOrO (a b : Option String) : Option String :=
  if truthyO a then a else b

/-- JS `n || d` for numbers: `0` is falsy. -/
def jsOrNum (a : Option Int) (b : Int) : Int :=
  match a with
  | some n => if n = 0 then b else n
  | none => b

/-- Whether `pat` occurs as a prefix of some suffix of `s`. -/
def listContainsSub (pat : List Char) : List Char → Bool
  | [] => pat.isEmpty
  | c :: rest => pat.isPrefixOf (c :: rest) || listContainsSub pat rest

/-- JS `String.prototype.includes`: substring containment. -/
def jsIncludes (s pat : String) : Bool :=
  if pat = "" then true else listContainsSub pat.data s.data

/-- JS `Array.prototype.join`. -/
def jsJoin (sep : String) : List String → String
  | [] => ""
  | [x] => x
  | x :: y :: xs => x ++ sep ++ jsJoin sep (y :: xs)

/-- JS `[...new Set(l)]`: deduplicate keeping first occurrences, in order. -/
def dedupFirst (l : List String) : List String :=
  l.foldl (fun acc x => if acc.contains x then acc else acc ++ [x]) []

/-- JS `Array.prototype.slice(-n)`: the last `n` elements. -/
def lastN (n : Nat) (l : List α) : List α := l.drop (l.length - n)

end JsSem

namespace FirebaseMemoryService

/-- Caller-supplied payload of a document write: arbitrary extra fields plus
the two fields the gateway treats specially (`timestamp`, `createdAt`). -/
structure Payload where
  fields : List (String × String)
  timestamp : Option String
  createdAt : Option String
deriving DecidableEq

/-- A document as written to a collection by the gateway. -/
structure StoredDoc where
  fields : List (String × String)
  sessionId : Option String
  timestamp : String
  createdAt : String
deriving DecidableEq

/-- The user-profile document as written by `storeUserProfile`
(`{ ...profileData, lastUpdated: now }`, merged). -/
structure ProfileStored where
  fields : List (String × String)
  lastUpdated : String
deriving DecidableEq

/-- A retrieved entry: `{ id: doc.id, ...doc.data() }`. -/
structure Entry where
  id : String
  doc : StoredDoc
deriving DecidableEq

/-- The gateway's result objects: `{success:true, id}`, `{success:true}`,
or `{success:false, error}`. -/
inductive StoreResult
  | okId (id : String)
  | okPlain
  | fail (error : String)
deriving DecidableEq

/-- JS `try { body } catch (e) { handler }` over a possibly-rejecting body. -/
def jsTry (body : Except String α) (handler : String → Except String α) :
    Except String α :=
  match body with
  | .ok a => .ok a
  | .error e => handler e

/-- The document built by `storeConversation` / `storeStageProgression` /
`storeUserContext`: `{ ...data, timestamp: data.timestamp || now,
createdAt: now }` — the literal's `timestamp`/`createdAt` keys override any
caller-supplied values. -/
def storedDoc (now : String) (p : Payload) : StoredDoc :=
  { fields := p.fields
    sessionId := none
    timestamp := JsSem.jsOr p.timestamp now
    createdAt := now }

/-- The document built by the four session-scoped writes:
`{ ...data, sessionId, timestamp: data.timestamp || now, createdAt: now }`. -/
def storedSessionDoc (now sessionId : String) (p : Payload) : StoredDoc :=
  { fields := p.fields
    sessionId := some sessionId
    timestamp := JsSem.jsOr p.timestamp now
    createdAt := now }

/-- The profile document built by `storeUserProfile`:
`{ ...profileData, lastUpdated: now }` (no `createdAt`). -/
def storedProfileDoc (now : String) (fields : List (String × String)) :
    ProfileStored :=
  { fields := fields, lastUpdated := now }

/-- `storeConversation`: the `setDoc` outcome is a parameter; its failure is
caught and converted to `{success:false, error}`. -/
def storeConversation (setDoc : StoredDoc → Except String Unit)
    (docId now : String) (p : Payload) : Except String StoreResult :=
  jsTry (do
      let _ ← setDoc (storedDoc now p)
      pure (StoreResult.okId docId))
    (fun e => .ok (StoreResult.fail e))

/-- `storeStageProgression` (same body shape as `storeConversation`). -/
def storeStageProgression (setDoc : StoredDoc → Except String Unit)
    (docId now : String) (p : Payload) : Except String StoreResult :=
  jsTry (do
      let _ ← setDoc (storedDoc now p)
      pure (StoreResult.okId docId))
    (fun e => .ok (StoreResult.fail e))

/-- `storeUserContext` (same body shape as `storeConversation`). -/
def storeUserContext (setDoc : StoredDoc → Except String Unit)
    (docId now : String) (p : Payload) : Except String StoreResult :=
  jsTry (do
      let _ ← setDoc (storedDoc now p)
      pure (StoreResult.okId docId))
    (fun e => .ok (StoreResult.fail e))

/-- `storeUserProfile`: merge-writes `{ ...profileData, lastUpdated: now }`
and returns `{success:true}` with no id. -/
def storeUserProfile (setDoc : ProfileStored → Except String Unit)
    (now : String) (fields : List (String × String)) :
    Except String StoreResult :=
  jsTry (do
      let _ ← setDoc (storedProfileDoc now fields)
      pure StoreResult.okPlain)
    (fun e => .ok (StoreResult.fail e))

/-- `getUserProfile`: returns the document data, `null` when the document
does not exist, and `null` on any underlying failure. -/
def getUserProfile
    (snap : Except String (Option (List (String × String)))) :
    Except String (Option (List (String × String))) :=
  jsTry (do
      let d ← snap
      pure d)
    (fun _ => .ok none)

/-- `{ id: doc.id, ...doc.data() }` for a collection query result. -/
def mkEntry (d : String × StoredDoc) : Entry := ⟨d.1, d.2⟩

/-- Insert into a list kept in descending `key` order. -/
def insertDescBy (key : α → String) (a : α) : List α → List α
  | [] => [a]
  | b :: bs => if key b ≤ key a then a :: b :: bs else b :: insertDescBy key a bs

/-- Sort a list into descending `key` order (insertion sort). -/
def sortDescBy (key : α → String) : List α → List α
  | [] => []
  | a :: rest => insertDescBy key a (sortDescBy key rest)

/-- Model of the document store's
`query(ref, orderBy('timestamp','desc'), limit(n))`: the collection sorted
most-recent-first by `timestamp`, truncated to `n` documents. -/
def firestoreQueryDesc (docs : List (String × StoredDoc)) (n : Int) :
    List (String × StoredDoc) :=
  (sortDescBy (fun d => d.2.timestamp) docs).take n.toNat

/-- `getConversationHistory`: ordered/limited query over the user's
`conversations` collection; any failure yields `[]`. -/
def getConversationHistory
    (coll : Except String (List (String × StoredDoc))) (limitCount : Int) :
    Except String (List Entry) :=
  jsTry (do
      let docs ← coll
      pure ((firestoreQueryDesc docs limitCount).map mkEntry))
    (fun _ => .ok [])

/-- `getUserStageProgressions` (same body shape as
`getConversationHistory`, over the `stages` collection). -/
def getUserStageProgressions
    (coll : Except String (List (String × StoredDoc))) (limitCount : Int) :
    Except String (List Entry) :=
  jsTry (do
      let docs ← coll
      pure ((firestoreQueryDesc docs limitCount).map mkEntry))
    (fun _ => .ok [])

/-- `getUserContext` (same body shape, over the `context` collection). -/
def getUserContext
    (coll : Except String (List (String × StoredDoc))) (limitCount : Int) :
    Except String (List Entry) :=
  jsTry (do
      let docs ← coll
      pure ((firestoreQueryDesc docs limitCount).map mkEntry))
    (fun _ => .ok [])

/-- `clearUserData`: reads the `conversations` and `stages` collections,
then commits one batch delete; any failure yields
`{success:false, error}`. -/
def clearUserData
    (convsSnap stagesSnap : Except String (List (String × StoredDoc)))
    (commit : Except String Unit) : Except String StoreResult :=
  jsTry (do
      let _ ← convsSnap
      let _ ← stagesSnap
      let _ ← commit
      pure StoreResult.okPlain)
    (fun e => .ok (StoreResult.fail e))

/-- `storeSessionStageProgression`. -/
def storeSessionStageProgression (setDoc : StoredDoc → Except String Unit)
    (docId now sessionId : String) (p : Payload) :
    Except String StoreResult :=
  jsTry (do
      let _ ← setDoc (storedSessionDoc now sessionId p)
      pure (StoreResult.okId docId))
    (fun e => .ok (StoreResult.fail e))

/-- `storeSessionUserContext`. -/
def storeSessionUserContext (setDoc : StoredDoc → Except String Unit)
    (docId now sessionId : String) (p : Payload) :
    Except String StoreResult :=
  jsTry (do
      let _ ← setDoc (storedSessionDoc now sessionId p)
      pure (StoreResult.okId docId))
    (fun e => .ok (StoreResult.fail e))

/-- `storeBreakthroughMoment`. -/
def storeBreakthroughMoment (setDoc : StoredDoc → Except String Unit)
    (docId now sessionId : String) (p : Payload) :
    Except String StoreResult :=
  jsTry (do
      let _ ← setDoc (storedSessionDoc now sessionId p)
      pure (StoreResult.okId docId))
    (fun e => .ok (StoreResult.fail e))

/-- `storeTherapeuticTheme`. -/
def storeTherapeuticTheme (setDoc : StoredDoc → Except String Unit)
    (docId now sessionId : String) (p : Payload) :
    Except String StoreResult :=
  jsTry (do
      let _ ← setDoc (storedSessionDoc now sessionId p)
      pure (StoreResult.okId docId))
    (fun e => .ok (StoreResult.fail e))

/-- `getSessionData`: plain `getDocs` (no `orderBy`, no `limit`) over up to
four session sub-collections selected by `dataType`, building an object
whose keys are inserted in source order; any failure yields `{}` (the empty
object, here the empty association list). -/
def getSessionData
    (stagesColl contextColl breakthroughsColl themesColl :
      Except String (List (String × StoredDoc)))
    (dataType : String) : Except String (List (String × List Entry)) :=
  jsTry (do
      let sd : List (String × List Entry) := []
      let sd ←
        if dataType = "all" ∨ dataType = "stages" then do
          let docs ← stagesColl
          pure (sd ++ [("stages", docs.map mkEntry)])
        else pure sd
      let sd ←
        if dataType = "all" ∨ dataType = "context" then do
          let docs ← contextColl
          pure (sd ++ [("context", docs.map mkEntry)])
        else pure sd
      let sd ←
        if dataType = "all" ∨ dataType = "breakthroughs" then do
          let docs ← breakthroughsColl
          pure (sd ++ [("breakthroughs", docs.map mkEntry)])
        else pure sd
      let sd ←
        if dataType = "all" ∨ dataType = "themes" then do
          let docs ← themesColl
          pure (sd ++ [("themes", docs.map mkEntry)])
        else pure sd
      pure sd)
    (fun _ => .ok [])

/-- `getCurrentSessionId`: a session id derived from the current clock,
`session_${today}_${Date.now()}`. -/
def getCurrentSessionId (today nowMs : String) : String :=
  "session_" ++ today ++ "_" ++ nowMs

/-- Whether a gateway result object has `success: true`. -/
def resultSuccess : StoreResult → Bool
  | .okId _ => true
  | .okPlain => true
  | .fail _ => false

/-- The `error` field of a gateway result object, when present. -/
def resultError : StoreResult → Option String
  | .fail e => some e
  | _ => none

end FirebaseMemoryService

namespace ContextTool

/-- A conversation entry as consumed by the tool
(`msg.type`, `msg.content`, `msg.stage`, `msg.timestamp`). -/
structure Msg where
  type : String
  content : String
  stage : Option String
  timestamp : String
deriving DecidableEq

/-- A stage-progression record; the tool only uses the list length. -/
structure StageRec where
  stage : Option String
deriving DecidableEq

/-- An entry of a session sub-collection as consumed by the summaries. -/
structure SessEntry where
  stage : String
  theme : Option String
  name : Option String
deriving DecidableEq

/-- The user-profile document as consumed by the tool. -/
structure ProfileDoc where
  symbolicName : Option String
  name : Option String
  currentStage : Option String
  lastStage : Option String
  registrationDate : Option String
  createdAt : Option String
  sessionCount : Option Int
  recurring_themes : Option (List String)
deriving DecidableEq

/-- The Storage Gateway interface as used by `ContextTool.execute`; every
method may reject. `getSessionData` returns an object modelled as an
association of key names to entry lists (its keys are `stages`, `context`,
`breakthroughs`, `themes` — see `FirebaseMemoryService.getSessionData`). -/
structure Gateway where
  getCurrentSessionId : String → Except String String
  getConversationHistory : String → Int → Except String (List Msg)
  getUserProfile : String → Except String (Option ProfileDoc)
  getUserStageProgressions : String → Int → Except String (List StageRec)
  getSessionData : String → String →
    Except String (List (String × List SessEntry))

/-- One element of `recent_messages`. -/
structure RecentMsg where
  type : String
  content : String
  stage : Option String
  timestamp : String
deriving DecidableEq

/-- The `conversations` section of the aggregated context. -/
structure ConvSection where
  total : Nat
  recent_messages : List RecentMsg
  summary : String
deriving DecidableEq

/-- The `profile` section of the aggregated context. -/
structure ProfileSection where
  symbolic_name : Option String
  current_stage : Option String
  registration_date : Option String
  session_count : Int
  themes : List String
deriving DecidableEq

/-- The `stages` section of the aggregated context. -/
structure StageSection where
  current_stage : String
  progression_notes : String
  total_progressions : Nat
deriving DecidableEq

/-- The `session` section of the aggregated context. -/
structure SessSection where
  session_id : String
  stage_progressions : List SessEntry
  user_context : List SessEntry
  breakthrough_moments : List SessEntry
  therapeutic_themes : List SessEntry
  summary : String
deriving DecidableEq

/-- Per-category result slot: the section data, or the inline error-marker
object `{ error: … }` substituted by the category's `catch`. -/
inductive CatResult (α : Type)
  | data (a : α)
  | failed (error : String)
deriving DecidableEq

/-- `result.context`: a key is `none` when never assigned. -/
structure Ctx where
  conversations : Option (CatResult ConvSection)
  profile : Option (CatResult ProfileSection)
  stages : Option (CatResult StageSection)
  session : Option (CatResult SessSection)
deriving DecidableEq

/-- The `result` object assembled by `execute`. -/
structure ResultData where
  user_id : String
  session_id : String
  timestamp : String
  context : Ctx
deriving DecidableEq

/-- The value returned by `execute`: `{success:false, error}` or
`{success:true, data, instructions}`. -/
inductive ExecOut
  | err (error : String)
  | ok (data : ResultData) (instructions : String)
deriving DecidableEq

/-- The tool-call parameters (each may be omitted by the caller). -/
structure ToolParams where
  user_id : Option String
  context_type : Option String
  session_id : Option String
  limit : Option Int
deriving DecidableEq

/-- `content.substring(0, 200)` plus an ellipsis for longer contents. -/
def contentPreview (c : String) : String :=
  c.take 200 ++ (if 200 < c.length then "..." else "")

/-- One recent message:
`{ type, content: preview, stage, timestamp }`. -/
def mkRecentMsg (m : Msg) : RecentMsg :=
  { type := m.type
    content := contentPreview m.content
    stage := m.stage
    timestamp := m.timestamp }

/-- `generateConversationSummary`. -/
def generateConversationSummary (conversations : List Msg) : String :=
  if conversations.isEmpty then "No previous conversation history found."
  else
    let userMessages := (conversations.filter (fun c => c.type = "user")).length
    let assistantMessages :=
      (conversations.filter (fun c => c.type = "assistant")).length
    let stages := JsSem.dedupFirst
      ((conversations.filter (fun c => JsSem.truthyO c.stage)).map
        (fun c => c.stage.getD ""))
    let summary := "Previous sessions: " ++ toString userMessages ++
      " user messages, " ++ toString assistantMessages ++ " VASA responses."
    let summary :=
      if stages.isEmpty then summary
      else summary ++ " CSS stages explored: " ++ JsSem.jsJoin ", " stages ++ "."
    let allContent :=
      (JsSem.jsJoin " " (conversations.map (fun c => c.content))).toLower
    let themes :=
      (if JsSem.jsIncludes allContent "contradiction" then
        ["contradictions/tensions"] else []) ++
      (if JsSem.jsIncludes allContent "completion" then
        ["completion work"] else []) ++
      (if JsSem.jsIncludes allContent "fragment" then
        ["fragmentation"] else []) ++
      (if JsSem.jsIncludes allContent "integration" then
        ["integration"] else [])
    if themes.isEmpty then summary
    else summary ++ " Recurring themes: " ++ JsSem.jsJoin ", " themes ++ "."

/-- The `conversations` section:
`{ total, recent_messages: conversations.slice(-5).map(…), summary }`. -/
def mkConvSection (conversations : List Msg) : ConvSection :=
  { total := conversations.length
    recent_messages := (JsSem.lastN 5 conversations).map mkRecentMsg
    summary := generateConversationSummary conversations }

/-- The `profile` section, with the JS `||` fallbacks of the source. -/
def mkProfileSection (p : ProfileDoc) : ProfileSection :=
  { symbolic_name := JsSem.jsOrO p.symbolicName p.name
    current_stage := JsSem.jsOrO p.currentStage p.lastStage
    registration_date := JsSem.jsOrO p.registrationDate p.createdAt
    session_count := JsSem.jsOrNum p.sessionCount 0
    themes := p.recurring_themes.getD [] }

/-- `result.context.profile?.current_stage || '⊙'`: the optional chain is
undefined when the profile slot is absent or an error marker. -/
def profileCurrentStage (profile : Option (CatResult ProfileSection)) :
    String :=
  match profile with
  | some (.data p) =>
    match p.current_stage with
    | some s => if s = "" then "⊙" else s
    | none => "⊙"
  | _ => "⊙"

/-- `sessionData.k || []`: field access on the session-data object. The
source reads keys (`stage_progressions`, `user_context`,
`breakthrough_moments`, `therapeutic_themes`) that
`FirebaseMemoryService.getSessionData` never sets, so against the real
gateway every lookup yields the `[]` default. -/
def sessLookup (sessionData : List (String × List SessEntry)) (k : String) :
    List SessEntry :=
  match sessionData.lookup k with
  | some l => l
  | none => []

/-- `generateSessionSummary`. -/
def generateSessionSummary
    (sessionData : List (String × List SessEntry)) : String :=
  let parts : List String := []
  let sp := sessLookup sessionData "stage_progressions"
  let parts :=
    if sp.length > 0 then
      parts ++ ["CSS stages in this session: " ++
        JsSem.jsJoin ", " (sp.map (fun s => s.stage))]
    else parts
  let bm := sessLookup sessionData "breakthrough_moments"
  let parts :=
    if bm.length > 0 then
      parts ++ [toString bm.length ++ " breakthrough moment(s) identified"]
    else parts
  let tt := sessLookup sessionData "therapeutic_themes"
  let parts :=
    if tt.length > 0 then
      parts ++ ["Therapeutic themes: " ++
        JsSem.jsJoin ", " (tt.map (fun t => (JsSem.jsOrO t.theme t.name).getD ""))]
    else parts
  let uc := sessLookup sessionData "user_context"
  let parts :=
    if uc.length > 0 then
      parts ++ [toString uc.length ++ " context entries recorded"]
    else parts
  let joined := JsSem.jsJoin ". " parts
  if joined = "" then "New session, no data recorded yet." else joined

/-- The `session` section. -/
def mkSessSection (sessionId : String)
    (sessionData : List (String × List SessEntry)) : SessSection :=
  { session_id := sessionId
    stage_progressions := sessLookup sessionData "stage_progressions"
    user_context := sessLookup sessionData "user_context"
    breakthrough_moments := sessLookup sessionData "breakthrough_moments"
    therapeutic_themes := sessLookup sessionData "therapeutic_themes"
    summary := generateSessionSummary sessionData }

/-- `generateInstructions`: a flat instruction string derived from the
aggregated context (never from `timestamp`). -/
def generateInstructions (contextData : ResultData) : String :=
  let instructions : List String := []
  let instructions :=
    match contextData.context.conversations with
    | some (.data c) =>
      if c.total > 0 then
        instructions ++
          ["Reference previous conversation when relevant.",
           "Build upon established symbolic themes and patterns."]
      else instructions
    | _ => instructions
  let instructions :=
    match contextData.context.profile with
    | some (.data p) =>
      match p.symbolic_name with
      | some n =>
        if n = "" then instructions
        else instructions ++ ["Address user by their symbolic name: " ++ n ++ "."]
      | none => instructions
    | _ => instructions
  let instructions :=
    match contextData.context.profile with
    | some (.data p) =>
      match p.current_stage with
      | some s =>
        if s = "" then instructions
        else instructions ++ ["Continue from CSS stage: " ++ s ++ "."]
      | none => instructions
    | _ => instructions
  let instructions :=
    instructions ++ ["Acknowledge conversation continuity naturally in your response."]
  JsSem.jsJoin " " instructions

/-- The tool's outer `try … catch`, producing `{success:false, error}`. -/
def jsTryOut (body : Except String ExecOut) (handler : String → ExecOut) :
    ExecOut :=
  match body with
  | .ok v => v
  | .error e => handler e

/-- `ContextTool.execute`. `now` is the value of
`new Date().toISOString()` at the time of the call. Each category's
gateway lookup is wrapped in its own `try`/`catch` that substitutes the
inline error marker; the profile slot is left unset when the profile is
`null`. -/
def execute (firebaseService : Option Gateway) (now : String)
    (parameters : ToolParams) : ExecOut :=
  let context_type := parameters.context_type.getD "all"
  let limit := parameters.limit.getD 10
  if ¬ JsSem.truthyO parameters.user_id then
    ExecOut.err "User ID is required"
  else
    match firebaseService with
    | none => ExecOut.err "Firebase service not available"
    | some gw =>
      let user_id := parameters.user_id.getD ""
      jsTryOut (do
          let currentSessionId ←
            if JsSem.truthyO parameters.session_id then
              pure (parameters.session_id.getD "")
            else gw.getCurrentSessionId user_id
          let conversations :=
            if context_type = "conversation" ∨ context_type = "all" then
              match gw.getConversationHistory user_id limit with
              | .ok cs => some (CatResult.data (mkConvSection cs))
              | .error _ =>
                some (CatResult.failed "Failed to retrieve conversations")
            else none
          let profile :=
            if context_type = "profile" ∨ context_type = "all" then
              match gw.getUserProfile user_id with
              | .ok (some p) => some (CatResult.data (mkProfileSection p))
              | .ok none => none
              | .error _ =>
                some (CatResult.failed "Failed to retrieve profile")
            else none
          let stages :=
            if context_type = "stages" ∨ context_type = "all" then
              match gw.getUserStageProgressions user_id limit with
              | .ok ss =>
                some (CatResult.data
                  { current_stage := profileCurrentStage profile
                    progression_notes := "Stage progression tracking active"
                    total_progressions := ss.length })
              | .error _ =>
                some (CatResult.failed "Failed to retrieve stage data")
            else none
          let session :=
            if (context_type = "session" ∨ context_type = "all") ∧
                JsSem.truthyS currentSessionId then
              match gw.getSessionData user_id currentSessionId with
              | .ok sd =>
                some (CatResult.data (mkSessSection currentSessionId sd))
              | .error _ =>
                some (CatResult.failed "Failed to retrieve session data")
            else none
          let result : ResultData :=
            { user_id := user_id
              session_id := currentSessionId
              timestamp := now
              context :=
                { conversations := conversations
                  profile := profile
                  stages := stages
                  session := session } }
          pure (ExecOut.ok result (generateInstructions result)))
        (fun e => ExecOut.err ("Context retrieval failed: " ++ e))

/-- Replace the `timestamp` field of a successful result. -/
def withTimestamp (out : ExecOut) (t : String) : ExecOut :=
  match out with
  | .ok d ins => .ok { d with timestamp := t } ins
  | .err e => .err e

/-- Projection: the `conversations.total` of a successful result. -/
def convTotal : ExecOut → Option Nat
  | .ok d _ =>
    match d.context.conversations with
    | some (.data c) => some c.total
    | _ => none
  | .err _ => none

/-- Projection: the `stages.total_progressions` of a successful result. -/
def stagesTotal : ExecOut → Option Nat
  | .ok d _ =>
    match d.context.stages with
    | some (.data s) => some s.total_progressions
    | _ => none
  | .err _ => none

/-- A probe gateway used to observe the limit `execute` passes to the
collection queries: each query returns a list whose length equals the
limit it received. -/
def gwProbe : Gateway :=
  { getCurrentSessionId := fun _ => .ok "S"
    getConversationHistory := fun _ n =>
      .ok (List.replicate n.toNat ⟨"user", "m", none, "T0"⟩)
    getUserProfile := fun _ => .ok none
    getUserStageProgressions := fun _ n =>
      .ok (List.replicate n.toNat ⟨none⟩)
    getSessionData := fun _ _ => .ok [] }

end ContextTool

namespace Routes

/-- A JSON request body to a memory write route:
`const { userUUID, ...data } = req.body`. -/
structure ReqBody where
  userUUID : Option String
  payload : FirebaseMemoryService.Payload
deriving DecidableEq

/-- The JSON bodies the route layer produces. -/
inductive RouteBody
  | jsonError (error : String)
  | jsonError500 (error details : String)
  | jsonStore (r : FirebaseMemoryService.StoreResult)
  | jsonClear (success : Bool) (message : String) (error : Option String)
  | jsonSuccess (success : Bool) (message : String)
deriving DecidableEq

/-- An HTTP response together with the number of Storage Gateway calls the
handler performed while producing it. -/
structure RouteOut where
  status : Nat
  body : RouteBody
  svcCalls : Nat
deriving DecidableEq

/-- Shared shape of the eight memory write routes: reject falsy `userUUID`
with 400 before any gateway call, otherwise forward to the gateway method
and return its result (500 if the method itself rejects). -/
def handleWrite (svc : FirebaseMemoryService.Payload →
      Except String FirebaseMemoryService.StoreResult)
    (failMsg : String) (body : ReqBody) : RouteOut :=
  if ¬ JsSem.truthyO body.userUUID then
    { status := 400, body := RouteBody.jsonError "userUUID is required"
      svcCalls := 0 }
  else
    match svc body.payload with
    | .ok r => { status := 200, body := RouteBody.jsonStore r, svcCalls := 1 }
    | .error e =>
      { status := 500, body := RouteBody.jsonError500 failMsg e, svcCalls := 1 }

/-- `POST /api/memory/conversation`. -/
def postConversation (svc : FirebaseMemoryService.Payload →
      Except String FirebaseMemoryService.StoreResult)
    (body : ReqBody) : RouteOut :=
  handleWrite svc "Failed to store conversation" body

/-- `POST /api/memory/stage`. -/
def postStage (svc : FirebaseMemoryService.Payload →
      Except String FirebaseMemoryService.StoreResult)
    (body : ReqBody) : RouteOut :=
  handleWrite svc "Failed to store stage" body

/-- `POST /api/memory/profile`. -/
def postProfile (svc : FirebaseMemoryService.Payload →
      Except String FirebaseMemoryService.StoreResult)
    (body : ReqBody) : RouteOut :=
  handleWrite svc "Failed to store profile" body

/-- `POST /api/memory/context`. -/
def postContext (svc : FirebaseMemoryService.Payload →
      Except String FirebaseMemoryService.StoreResult)
    (body : ReqBody) : RouteOut :=
  handleWrite svc "Failed to store context" body

/-- `POST /api/memory/session/:sessionId/stage`. -/
def postSessionStage (svc : String → FirebaseMemoryService.Payload →
      Except String FirebaseMemoryService.StoreResult)
    (sessionId : String) (body : ReqBody) : RouteOut :=
  handleWrite (svc sessionId) "Failed to store session stage" body

/-- `POST /api/memory/session/:sessionId/context`. -/
def postSessionContext (svc : String → FirebaseMemoryService.Payload →
      Except String FirebaseMemoryService.StoreResult)
    (sessionId : String) (body : ReqBody) : RouteOut :=
  handleWrite (svc sessionId) "Failed to store session context" body

/-- `POST /api/memory/session/:sessionId/breakthrough`. -/
def postBreakthrough (svc : String → FirebaseMemoryService.Payload →
      Except String FirebaseMemoryService.StoreResult)
    (sessionId : String) (body : ReqBody) : RouteOut :=
  handleWrite (svc sessionId) "Failed to store breakthrough moment" body

/-- `POST /api/memory/session/:sessionId/theme`. -/
def postTheme (svc : String → FirebaseMemoryService.Payload →
      Except String FirebaseMemoryService.StoreResult)
    (sessionId : String) (body : ReqBody) : RouteOut :=
  handleWrite (svc sessionId) "Failed to store therapeutic theme" body

/-- `DELETE /api/memory/user/:userUUID`: responds
`{ success: true, message: 'User data cleared', ...result }` — the spread
of the gateway result overrides the literal's `success: true`. -/
def deleteUser
    (clearUserData : Except String FirebaseMemoryService.StoreResult)
    (_userUUID : String) : RouteOut :=
  match clearUserData with
  | .ok r =>
    { status := 200
      body := RouteBody.jsonClear (FirebaseMemoryService.resultSuccess r)
        "User data cleared" (FirebaseMemoryService.resultError r)
      svcCalls := 1 }
  | .error e =>
    { status := 500, body := RouteBody.jsonError500 "Failed to clear user data" e
      svcCalls := 1 }

/-- An inbound webhook request: the two headers the secret check reads,
plus the JSON body fields. -/
structure WebhookReq where
  sigHeader : Option String
  authHeader : Option String
  agent_id : Option String
  conversation_id : Option String
  user_id : Option String
  message : Option String
  message_type : Option String
  timestamp : Option String
deriving DecidableEq

/-- The conversation entry a webhook event is translated into. -/
structure ConvEntry where
  type : String
  content : String
  agent_id : Option String
  conversation_id : Option String
  timestamp : String
  metadataSource : String
deriving DecidableEq

/-- `{ type: message_type === 'user_message' ? 'user' : 'assistant',
content: message, agent_id, conversation_id,
timestamp: timestamp || now, metadata: { source: 'elevenlabs_webhook' } }`. -/
def webhookEntry (now : String) (req : WebhookReq) : ConvEntry :=
  { type := if req.message_type = some "user_message" then "user" else "assistant"
    content := req.message.getD ""
    agent_id := req.agent_id
    conversation_id := req.conversation_id
    timestamp := JsSem.jsOr req.timestamp now
    metadataSource := "elevenlabs_webhook" }

/-- The webhook's secret check: with a truthy configured secret, take
`providedSecret = sig || auth` and reject when it is falsy or does not
contain the secret as a substring. -/
def secretRejects (webhookSecret : Option String) (req : WebhookReq) : Bool :=
  match webhookSecret with
  | some s =>
    if s = "" then false
    else
      match JsSem.jsOrO req.sigHeader req.authHeader with
      | some p => if p = "" then true else ¬ JsSem.jsIncludes p s
      | none => true
  | none => false

/-- A webhook response together with the attempted `storeConversation`
call, when one was made (its outcome is recorded but never surfaced). -/
structure WebhookOut where
  status : Nat
  body : RouteBody
  storeAttempt : Option (Except String FirebaseMemoryService.StoreResult)
deriving DecidableEq

/-- `POST /api/elevenlabs-webhook`: after the secret check, events with a
truthy `user_id` and `message` are written through the gateway inside a
`try`/`catch` whose failure is only logged; the endpoint always
acknowledges with `{ success: true, message: 'Webhook processed' }`. -/
def elevenlabsWebhook (webhookSecret : Option String)
    (storeConversation : String → ConvEntry →
      Except String FirebaseMemoryService.StoreResult)
    (now : String) (req : WebhookReq) : WebhookOut :=
  if secretRejects webhookSecret req then
    { status := 401, body := RouteBody.jsonError "Unauthorized webhook request"
      storeAttempt := none }
  else
    { status := 200
      body := RouteBody.jsonSuccess true "Webhook processed"
      storeAttempt :=
        if JsSem.truthyO req.user_id ∧ JsSem.truthyO req.message then
          some (storeConversation (req.user_id.getD "") (webhookEntry now req))
        else none }

end Routes

open JsSem FirebaseMemoryService ContextTool Routes

/-- Helper: reduction of a bind on a settled `Except`. -/
theorem exceptBind_ok (a : α) (f : α → Except String β) :
    (Except.ok a >>= f) = f a := rfl

/-- Helper: reduction of a bind on a rejected `Except`. -/
theorem exceptBind_error (e : String) (f : α → Except String β) :
    ((Except.error e : Except String α) >>= f) = Except.error e := rfl

/-- Helper: a `try`/`catch` whose handler returns normally never rejects. -/
theorem jsTry_total (body : Except String α) (g : String → α) :
    ∃ a, jsTry body (fun e => .ok (g e)) = .ok a := by
  cases body with
  | ok a => exact ⟨a, rfl⟩
  | error e => exact ⟨g e, rfl⟩

/-- Helper: membership in an ordered insertion. -/
theorem mem_insertDescBy (key : α → String) (a x : α) (l : List α) :
    x ∈ insertDescBy key a l ↔ x = a ∨ x ∈ l := by
  induction l with
  | nil => simp [insertDescBy]
  | cons b bs ih =>
    simp only [insertDescBy]
    split
    · simp
    · simp only [List.mem_cons, ih]
      tauto

/-- Helper: ordered insertion preserves descending sortedness. -/
theorem pairwise_insertDescBy (key : α → String) (a : α) (l : List α)
    (h : l.Pairwise (fun x y => key y ≤ key x)) :
    (insertDescBy key a l).Pairwise (fun x y => key y ≤ key x) := by
  induction l with
  | nil => simp [insertDescBy]
  | cons b bs ih =>
    rw [List.pairwise_cons] at h
    obtain ⟨hb, hbs⟩ := h
    simp only [insertDescBy]
    split
    · next hba =>
      refine List.pairwise_cons.mpr ⟨?_, List.pairwise_cons.mpr ⟨hb, hbs⟩⟩
      intro y hy
      rcases List.mem_cons.mp hy with rfl | hy
      · exact hba
      · exact le_trans (hb y hy) hba
    · next hba =>
      refine List.pairwise_cons.mpr ⟨?_, ih hbs⟩
      intro y hy
      rcases (mem_insertDescBy key a y bs).mp hy with rfl | hy
      · exact le_of_not_le hba
      · exact hb y hy

/-- Helper: the query model sorts descending. -/
theorem pairwise_sortDescBy (key : α → String) (l : List α) :
    (sortDescBy key l).Pairwise (fun x y => key y ≤ key x) := by
  induction l with
  | nil => simp [sortDescBy]
  | cons a rest ih => exact pairwise_insertDescBy key a _ ih

/-- Helper: ordered insertion adds one element. -/
theorem length_insertDescBy (key : α → String) (a : α) (l : List α) :
    (insertDescBy key a l).length = l.length + 1 := by
  induction l with
  | nil => rfl
  | cons b bs ih =>
    simp only [insertDescBy]
    split
    · simp
    · simp [ih]

/-- Helper: the sort model keeps the length. -/
theorem length_sortDescBy (key : α → String) (l : List α) :
    (sortDescBy key l).length = l.length := by
  induction l with
  | nil => rfl
  | cons a rest ih => simp [sortDescBy, length_insertDescBy, ih]

/-- Helper: ordered insertion is a permutation of consing. -/
theorem perm_insertDescBy (key : α → String) (a : α) (l : List α) :
    List.Perm (insertDescBy key a l) (a :: l) := by
  induction l with
  | nil => exact List.Perm.refl _
  | cons b bs ih =>
    simp only [insertDescBy]
    split
    · exact List.Perm.refl _
    · exact (ih.cons b).trans (List.Perm.swap a b bs)

/-- Helper: the sort model permutes its input. -/
theorem perm_sortDescBy (key : α → String) (l : List α) :
    List.Perm (sortDescBy key l) l := by
  induction l with
  | nil => exact List.Perm.refl _
  | cons a rest ih => exact (perm_insertDescBy key a _).trans (ih.cons a)

/-- C1: every Storage Gateway method settles without rejecting, for every
behaviour of the underlying document-store calls: write methods convert an
underlying failure into `{success:false, error}`, and read methods convert
it into `[]`, `null`, or `{}` respectively. -/
theorem C1_storage_gateway_never_throws :
    (∀ f id now p, ∃ r, storeConversation f id now p = .ok r) ∧
    (∀ e id now p, storeConversation (fun _ => .error e) id now p =
      .ok (.fail e)) ∧
    (∀ f id now p, ∃ r, storeStageProgression f id now p = .ok r) ∧
    (∀ e id now p, storeStageProgression (fun _ => .error e) id now p =
      .ok (.fail e)) ∧
    (∀ f id now p, ∃ r, storeUserContext f id now p = .ok r) ∧
    (∀ e id now p, storeUserContext (fun _ => .error e) id now p =
      .ok (.fail e)) ∧
    (∀ f now fs, ∃ r, storeUserProfile f now fs = .ok r) ∧
    (∀ e now fs, storeUserProfile (fun _ => .error e) now fs =
      .ok (.fail e)) ∧
    (∀ coll n, ∃ l, getConversationHistory coll n = .ok l) ∧
    (∀ e n, getConversationHistory (.error e) n = .ok []) ∧
    (∀ snap, ∃ o, getUserProfile snap = .ok o) ∧
    (∀ e, getUserProfile (.error e) = .ok none) ∧
    (∀ a b c, ∃ r, clearUserData a b c = .ok r) ∧
    (∀ e b c, clearUserData (.error e) b c = .ok (.fail e)) ∧
    (∀ x e c, clearUserData (.ok x) (.error e) c = .ok (.fail e)) ∧
    (∀ x y e, clearUserData (.ok x) (.ok y) (.error e) = .ok (.fail e)) ∧
    (∀ coll n, ∃ l, getUserStageProgressions coll n = .ok l) ∧
    (∀ e n, getUserStageProgressions (.error e) n = .ok []) ∧
    (∀ coll n, ∃ l, getUserContext coll n = .ok l) ∧
    (∀ e n, getUserContext (.error e) n = .ok []) ∧
    (∀ f id now sid p, ∃ r, storeSessionStageProgression f id now sid p =
      .ok r) ∧
    (∀ e id now sid p, storeSessionStageProgression (fun _ => .error e)
      id now sid p = .ok (.fail e)) ∧
    (∀ f id now sid p, ∃ r, storeSessionUserContext f id now sid p =
      .ok r) ∧
    (∀ e id now sid p, storeSessionUserContext (fun _ => .error e)
      id now sid p = .ok (.fail e)) ∧
    (∀ f id now sid p, ∃ r, storeBreakthroughMoment f id now sid p =
      .ok r) ∧
    (∀ e id now sid p, storeBreakthroughMoment (fun _ => .error e)
      id now sid p = .ok (.fail e)) ∧
    (∀ f id now sid p, ∃ r, storeTherapeuticTheme f id now sid p = .ok r) ∧
    (∀ e id now sid p, storeTherapeuticTheme (fun _ => .error e)
      id now sid p = .ok (.fail e)) ∧
    (∀ a b c d t, ∃ l, getSessionData a b c d t = .ok l) ∧
    (∀ e b c d, getSessionData (.error e) b c d "all" = .ok []) ∧
    (∀ x e c d, getSessionData (.ok x) (.error e) c d "all" = .ok []) ∧
    (∀ x y e d, getSessionData (.ok x) (.ok y) (.error e) d "all" =
      .ok []) ∧
    (∀ x y z e, getSessionData (.ok x) (.ok y) (.ok z) (.error e) "all" =
      .ok []) :=
  ⟨fun f id now p => jsTry_total _ _,
   fun _ _ _ _ => rfl,
   fun f id now p => jsTry_total _ _,
   fun _ _ _ _ => rfl,
   fun f id now p => jsTry_total _ _,
   fun _ _ _ _ => rfl,
   fun f now fs => jsTry_total _ _,
   fun _ _ _ => rfl,
   fun coll n => jsTry_total _ _,
   fun _ _ => rfl,
   fun snap => jsTry_total _ _,
   fun _ => rfl,
   fun a b c => jsTry_total _ _,
   fun _ _ _ => rfl,
   fun x e c => by cases c <;> rfl,
   fun _ _ _ => rfl,
   fun coll n => jsTry_total _ _,
   fun _ _ => rfl,
   fun coll n => jsTry_total _ _,
   fun _ _ => rfl,
   fun f id now sid p => jsTry_total _ _,
   fun _ _ _ _ _ => rfl,
   fun f id now sid p => jsTry_total _ _,
   fun _ _ _ _ _ => rfl,
   fun f id now sid p => jsTry_total _ _,
   fun _ _ _ _ _ => rfl,
   fun f id now sid p => jsTry_total _ _,
   fun _ _ _ _ _ => rfl,
   fun a b c d t => jsTry_total _ _,
   fun _ _ _ _ => rfl,
   fun _ _ _ _ => rfl,
   fun _ _ _ _ => rfl,
   fun _ _ _ _ => rfl⟩

/-- C3 counterexample: the session-data read returns entries in store
order, not most-recent-first — with two stage entries stored
oldest-first, the first returned entry is the older one. -/
theorem C3_session_read_counterexample :
    getSessionData
        (.ok [("a", ⟨[], none, "2024-01-01T00:00:00Z", "C"⟩),
              ("b", ⟨[], none, "2024-01-02T00:00:00Z", "C"⟩)])
        (.ok []) (.ok []) (.ok []) "stages" =
      .ok [("stages",
        [⟨"a", ⟨[], none, "2024-01-01T00:00:00Z", "C"⟩⟩,
         ⟨"b", ⟨[], none, "2024-01-02T00:00:00Z", "C"⟩⟩])] ∧
    ("2024-01-01T00:00:00Z" : String) < "2024-01-02T00:00:00Z" :=
  ⟨rfl, by simp; decide⟩

/-- C3 (amended): the collection reads `getConversationHistory`,
`getUserStageProgressions` and `getUserContext` return entries ordered
most-recent-first by `timestamp`, truncated to the caller-specified limit
(the sort model permutes the collection); the session-data read applies no
ordering and no limit, returning every entry of each requested
sub-collection in store order; every collection-append write attaches the
server-assigned `createdAt`, while the profile write attaches a
server-assigned `lastUpdated` instead. -/
theorem C3_order_and_timestamps_amended :
    (∀ docs n, getConversationHistory (.ok docs) n =
      .ok ((firestoreQueryDesc docs n).map mkEntry)) ∧
    (∀ docs n, getUserStageProgressions (.ok docs) n =
      .ok ((firestoreQueryDesc docs n).map mkEntry)) ∧
    (∀ docs n, getUserContext (.ok docs) n =
      .ok ((firestoreQueryDesc docs n).map mkEntry)) ∧
    (∀ docs (n : Int), ((firestoreQueryDesc docs n).map mkEntry).Pairwise
      (fun x y => y.doc.timestamp ≤ x.doc.timestamp)) ∧
    (∀ docs (n : Int), (firestoreQueryDesc docs n).length =
      min n.toNat docs.length) ∧
    (∀ docs : List (String × StoredDoc),
      List.Perm (sortDescBy (fun d => d.2.timestamp) docs) docs) ∧
    (∀ s c b t, getSessionData (.ok s) (.ok c) (.ok b) (.ok t) "all" =
      .ok [("stages", s.map mkEntry), ("context", c.map mkEntry),
           ("breakthroughs", b.map mkEntry), ("themes", t.map mkEntry)]) ∧
    (∀ now p, (storedDoc now p).createdAt = now) ∧
    (∀ now sid p, (storedSessionDoc now sid p).createdAt = now) ∧
    (∀ now fs, (storedProfileDoc now fs).lastUpdated = now) := by
  refine ⟨fun docs n => rfl, fun docs n => rfl, fun docs n => rfl,
    ?_, ?_, fun docs => perm_sortDescBy _ docs, fun s c b t => rfl,
    fun now p => rfl, fun now sid p => rfl, fun now fs => rfl⟩
  · intro docs n
    refine List.pairwise_map.mpr ?_
    exact (pairwise_sortDescBy (fun d => d.2.timestamp) docs).sublist
      (List.take_sublist _ _)
  · intro docs n
    simp [firestoreQueryDesc, List.length_take, length_sortDescBy]

/-- C9: when `clearUserData` returns, the delete route always responds
HTTP 200 and the response's `success` field is the gateway result's
`success` field — the spread overrides the route's own `success:true`; in
particular an underlying commit failure still yields a 200 response with
`success:false` and the error. -/
theorem C9_delete_route_status :
    (∀ u r, deleteUser (.ok r) u =
      { status := 200
        body := RouteBody.jsonClear (resultSuccess r) "User data cleared"
          (resultError r)
        svcCalls := 1 }) ∧
    (∀ u cs ss e, deleteUser (clearUserData (.ok cs) (.ok ss) (.error e)) u =
      { status := 200
        body := RouteBody.jsonClear false "User data cleared" (some e)
        svcCalls := 1 }) ∧
    (∀ u cs ss, deleteUser (clearUserData (.ok cs) (.ok ss) (.ok ())) u =
      { status := 200
        body := RouteBody.jsonClear true "User data cleared" none
        svcCalls := 1 }) :=
  ⟨fun _ _ => rfl, fun _ _ _ _ => rfl, fun _ _ _ => rfl⟩

/-- C10 counterexample: a conversation write whose input carries the
`timestamp` field with the (falsy) empty-string value does not keep it —
the stored record's timestamp is the server time instead. -/
theorem C10_timestamp_counterexample :
    (storedDoc "2024-06-01T00:00:00Z"
        ⟨[("content", "x")], some "", none⟩).timestamp =
      "2024-06-01T00:00:00Z" ∧
    storeConversation (fun _ => .ok ()) "id0" "2024-06-01T00:00:00Z"
        ⟨[("content", "x")], some "", none⟩ = .ok (.okId "id0") ∧
    ("2024-06-01T00:00:00Z" : String) ≠ "" :=
  ⟨rfl, rfl, by decide⟩

/-- C10 (amended): a caller-supplied truthy (non-empty) `timestamp` is
kept unchanged; an absent or empty timestamp is replaced by the server
time; `createdAt` is always server-assigned, overriding any
caller-supplied value — for conversation/stage/context writes and for all
session-scoped writes (which additionally attach the session id). The
probe write conjuncts observe through the store call itself that the
document handed to the underlying write has `createdAt = now`. -/
theorem C10_timestamp_fields_amended :
    (∀ now fs ca t, (storedDoc now ⟨fs, some t, ca⟩).timestamp =
      if t = "" then now else t) ∧
    (∀ now fs ca, (storedDoc now ⟨fs, none, ca⟩).timestamp = now) ∧
    (∀ now p, (storedDoc now p).createdAt = now) ∧
    (∀ now sid fs ca t,
      (storedSessionDoc now sid ⟨fs, some t, ca⟩).timestamp =
        if t = "" then now else t) ∧
    (∀ now sid fs ca,
      (storedSessionDoc now sid ⟨fs, none, ca⟩).timestamp = now) ∧
    (∀ now sid p, (storedSessionDoc now sid p).createdAt = now) ∧
    (∀ now sid p, (storedSessionDoc now sid p).sessionId = some sid) ∧
    (∀ id now p, storeConversation
        (fun d => if d.createdAt = now then .ok () else .error "createdAt")
        id now p = .ok (.okId id)) ∧
    (∀ id now sid p, storeBreakthroughMoment
        (fun d => if d.createdAt = now then .ok () else .error "createdAt")
        id now sid p = .ok (.okId id)) := by
  refine ⟨fun now fs ca t => rfl, fun now fs ca => rfl, fun now p => rfl,
    fun now sid fs ca t => rfl, fun now sid fs ca => rfl,
    fun now sid p => rfl, fun now sid p => rfl, ?_, ?_⟩
  · intro id now p
    simp [storeConversation, jsTry, storedDoc]
  · intro id now sid p
    simp [storeBreakthroughMoment, jsTry, storedSessionDoc]

/-- Helper: `handleWrite` rejects an absent `userUUID` with 400 and no
gateway call. -/
theorem handleWrite_none (svc) (m : String) (p) :
    handleWrite svc m ⟨none, p⟩ =
      { status := 400, body := RouteBody.jsonError "userUUID is required"
        svcCalls := 0 } := rfl

/-- Helper: `handleWrite` rejects an empty-string `userUUID` likewise. -/
theorem handleWrite_empty (svc) (m : String) (p) :
    handleWrite svc m ⟨some "", p⟩ =
      { status := 400, body := RouteBody.jsonError "userUUID is required"
        svcCalls := 0 } := rfl

/-- Helper: with `userUUID` present, `handleWrite` calls the gateway
exactly when the value is non-empty. -/
theorem handleWrite_calls (svc) (m u : String) (p) :
    (handleWrite svc m ⟨some u, p⟩).svcCalls = if u = "" then 0 else 1 := by
  by_cases h : u = ""
  · subst h; rfl
  · simp only [handleWrite, JsSem.truthyO, h]
    cases svc p <;> simp [h]

/-- C5 counterexample: a conversation write whose body carries
`userUUID` with the (present but falsy) empty-string value is rejected
with 400 and performs no gateway call, contrary to "with userUUID present,
the gateway is called". -/
theorem C5_write_route_counterexample :
    postConversation (fun _ => .ok .okPlain)
        ⟨some "", ⟨[("content", "x")], none, none⟩⟩ =
      { status := 400, body := RouteBody.jsonError "userUUID is required"
        svcCalls := 0 } := rfl

/-- C5 (amended): every memory write route responds 400 with an error and
performs no Storage Gateway call when `userUUID` is absent or falsy
(empty); with a non-empty `userUUID` the gateway is called (exactly
once). -/
theorem C5_write_route_validation_amended :
    (∀ svc p, postConversation svc ⟨none, p⟩ =
      { status := 400, body := RouteBody.jsonError "userUUID is required"
        svcCalls := 0 }) ∧
    (∀ svc p, postConversation svc ⟨some "", p⟩ =
      { status := 400, body := RouteBody.jsonError "userUUID is required"
        svcCalls := 0 }) ∧
    (∀ svc u p, (postConversation svc ⟨some u, p⟩).svcCalls =
      if u = "" then 0 else 1) ∧
    (∀ svc p, postStage svc ⟨none, p⟩ =
      { status := 400, body := RouteBody.jsonError "userUUID is required"
        svcCalls := 0 }) ∧
    (∀ svc u p, (postStage svc ⟨some u, p⟩).svcCalls =
      if u = "" then 0 else 1) ∧
    (∀ svc p, postProfile svc ⟨none, p⟩ =
      { status := 400, body := RouteBody.jsonError "userUUID is required"
        svcCalls := 0 }) ∧
    (∀ svc u p, (postProfile svc ⟨some u, p⟩).svcCalls =
      if u = "" then 0 else 1) ∧
    (∀ svc p, postContext svc ⟨none, p⟩ =
      { status := 400, body := RouteBody.jsonError "userUUID is required"
        svcCalls := 0 }) ∧
    (∀ svc u p, (postContext svc ⟨some u, p⟩).svcCalls =
      if u = "" then 0 else 1) ∧
    (∀ svc sid p, postSessionStage svc sid ⟨none, p⟩ =
      { status := 400, body := RouteBody.jsonError "userUUID is required"
        svcCalls := 0 }) ∧
    (∀ svc sid u p, (postSessionStage svc sid ⟨some u, p⟩).svcCalls =
      if u = "" then 0 else 1) ∧
    (∀ svc sid p, postSessionContext svc sid ⟨none, p⟩ =
      { status := 400, body := RouteBody.jsonError "userUUID is required"
        svcCalls := 0 }) ∧
    (∀ svc sid u p, (postSessionContext svc sid ⟨some u, p⟩).svcCalls =
      if u = "" then 0 else 1) ∧
    (∀ svc sid p, postBreakthrough svc sid ⟨none, p⟩ =
      { status := 400, body := RouteBody.jsonError "userUUID is required"
        svcCalls := 0 }) ∧
    (∀ svc sid u p, (postBreakthrough svc sid ⟨some u, p⟩).svcCalls =
      if u = "" then 0 else 1) ∧
    (∀ svc sid p, postTheme svc sid ⟨none, p⟩ =
      { status := 400, body := RouteBody.jsonError "userUUID is required"
        svcCalls := 0 }) ∧
    (∀ svc sid u p, (postTheme svc sid ⟨some u, p⟩).svcCalls =
      if u = "" then 0 else 1) :=
  ⟨fun _ _ => handleWrite_none _ _ _,
   fun _ _ => handleWrite_empty _ _ _,
   fun _ _ _ => handleWrite_calls _ _ _ _,
   fun _ _ => handleWrite_none _ _ _,
   fun _ _ _ => handleWrite_calls _ _ _ _,
   fun _ _ => handleWrite_none _ _ _,
   fun _ _ _ => handleWrite_calls _ _ _ _,
   fun _ _ => handleWrite_none _ _ _,
   fun _ _ _ => handleWrite_calls _ _ _ _,
   fun _ _ _ => handleWrite_none _ _ _,
   fun _ _ _ _ => handleWrite_calls _ _ _ _,
   fun _ _ _ => handleWrite_none _ _ _,
   fun _ _ _ _ => handleWrite_calls _ _ _ _,
   fun _ _ _ => handleWrite_none _ _ _,
   fun _ _ _ _ => handleWrite_calls _ _ _ _,
   fun _ _ _ => handleWrite_none _ _ _,
   fun _ _ _ _ => handleWrite_calls _ _ _ _⟩

/-- Helper: characterisation of the webhook secret check for a non-empty
configured secret, in terms of the first truthy header. -/
theorem secretRejects_spec (s : String) (req : WebhookReq) (hs : s ≠ "") :
    secretRejects (some s) req = true ↔
      (truthyO (jsOrO req.sigHeader req.authHeader) = false ∨
       jsIncludes ((jsOrO req.sigHeader req.authHeader).getD "") s = false) := by
  simp only [secretRejects, if_neg hs]
  cases hp : jsOrO req.sigHeader req.authHeader with
  | none => simp [truthyO]
  | some p =>
    by_cases hpe : p = ""
    · subst hpe; simp [truthyO]
    · simp only [truthyO, hpe, Option.getD_some]
      cases hinc : jsIncludes p s <;> simp [hinc, hpe]

/-- C6 counterexample: with secret `"sec"` configured, a request whose
signature header is `"xx"` (does not contain the secret) while the
authorization header is `"sec123"` (does contain it) is rejected with 401
and no write — the code only inspects the first truthy header, so
"neither header contains the secret" is not equivalent to rejection. -/
theorem C6_webhook_secret_counterexample :
    elevenlabsWebhook (some "sec") (fun _ _ => .ok .okPlain) "T"
        ⟨some "xx", some "sec123", none, none, some "u", some "hi",
         none, none⟩ =
      { status := 401
        body := RouteBody.jsonError "Unauthorized webhook request"
        storeAttempt := none } ∧
    jsIncludes "sec123" "sec" = true :=
  ⟨rfl, rfl⟩

/-- C6 (amended): with a truthy configured secret, the webhook evaluates
only `providedSecret = sigHeader || authHeader` and responds 401 with no
write exactly when that value is falsy or does not contain the secret as a
substring; with no (truthy) configured secret, no check is made and the
endpoint proceeds to acknowledge with 200. -/
theorem C6_webhook_secret_amended :
    (∀ s store now req, s ≠ "" →
      (((elevenlabsWebhook (some s) store now req).status = 401 ∧
        (elevenlabsWebhook (some s) store now req).storeAttempt = none) ↔
       (truthyO (jsOrO req.sigHeader req.authHeader) = false ∨
        jsIncludes ((jsOrO req.sigHeader req.authHeader).getD "") s =
          false))) ∧
    (∀ store now req, (elevenlabsWebhook none store now req).status = 200) ∧
    (∀ store now req,
      (elevenlabsWebhook (some "") store now req).status = 200) := by
  refine ⟨?_, fun store now req => rfl, fun store now req => rfl⟩
  intro s store now req hs
  rw [← secretRejects_spec s req hs]
  cases hr : secretRejects (some s) req <;>
    simp [elevenlabsWebhook, hr]

/-- C6 witness for the amended theorem, at a concrete rejected request. -/
theorem C6_webhook_secret_amended_witness :
    ("sec" : String) ≠ "" ∧
    (((elevenlabsWebhook (some "sec") (fun _ _ => .ok .okPlain) "T"
        ⟨none, some "nope", none, none, some "u", some "hi",
         none, none⟩).status = 401 ∧
      (elevenlabsWebhook (some "sec") (fun _ _ => .ok .okPlain) "T"
        ⟨none, some "nope", none, none, some "u", some "hi",
         none, none⟩).storeAttempt = none) ↔
     (truthyO (jsOrO (none : Option String) (some "nope")) = false ∨
      jsIncludes ((jsOrO (none : Option String) (some "nope")).getD "")
        "sec" = false)) :=
  ⟨by decide,
   C6_webhook_secret_amended.1 "sec" (fun _ _ => .ok .okPlain) "T"
     ⟨none, some "nope", none, none, some "u", some "hi", none, none⟩
     (by decide)⟩

/-- C7: a webhook request that passes the secret check but lacks a truthy
`message` (or `user_id`) is acknowledged with `{success:true}` and no
`storeConversation` call; and regardless of the store's outcome — failure
included — the endpoint acknowledges with HTTP 200 and `{success:true}`. -/
theorem C7_webhook_always_acknowledges :
    (∀ secret store now req, secretRejects secret req = false →
      truthyO req.message = false →
      elevenlabsWebhook secret store now req =
        { status := 200
          body := RouteBody.jsonSuccess true "Webhook processed"
          storeAttempt := none }) ∧
    (∀ secret store now req, secretRejects secret req = false →
      truthyO req.user_id = false →
      elevenlabsWebhook secret store now req =
        { status := 200
          body := RouteBody.jsonSuccess true "Webhook processed"
          storeAttempt := none }) ∧
    (∀ secret store now req, secretRejects secret req = false →
      (elevenlabsWebhook secret store now req).status = 200 ∧
      (elevenlabsWebhook secret store now req).body =
        RouteBody.jsonSuccess true "Webhook processed") := by
  refine ⟨?_, ?_, ?_⟩
  · intro secret store now req h1 h2
    simp [elevenlabsWebhook, h1, h2]
  · intro secret store now req h1 h2
    simp [elevenlabsWebhook, h1, h2]
  · intro secret store now req h1
    simp [elevenlabsWebhook, h1]

/-- C7 witness: a secretless request with no `message` and a failing
store, acknowledged with no write. -/
theorem C7_webhook_always_acknowledges_witness :
    secretRejects none
        ⟨none, none, none, none, some "u", none, none, none⟩ = false ∧
    truthyO (WebhookReq.message
        ⟨none, none, none, none, some "u", none, none, none⟩) = false ∧
    elevenlabsWebhook none (fun _ _ => .error "store down") "T"
        ⟨none, none, none, none, some "u", none, none, none⟩ =
      { status := 200
        body := RouteBody.jsonSuccess true "Webhook processed"
        storeAttempt := none } :=
  ⟨rfl, rfl,
   C7_webhook_always_acknowledges.1 none (fun _ _ => .error "store down")
     "T" ⟨none, none, none, none, some "u", none, none, none⟩ rfl rfl⟩

/-- C4 counterexample: against the probe gateway (whose queries return as
many entries as the limit they receive), a call with `limit: 100` yields a
conversations section with `total = 100` — the gateway query was issued
with limit 100, outside the 1–50 range the schema declares. -/
theorem C4_limit_counterexample :
    convTotal (execute (some gwProbe) "T"
      ⟨some "u", some "all", some "S", some 100⟩) = some 100 ∧
    ¬ ((100 : Nat) ≤ 50) :=
  ⟨rfl, by decide⟩

/-- C4 (amended): `execute` passes the caller-supplied limit through to
the conversation and stage queries unmodified — the 1–50 bound exists only
in the declared tool schema and is not enforced — and uses 10 when the
caller omits the limit. -/
theorem C4_limit_passthrough_amended :
    (∀ n : Int, convTotal (execute (some gwProbe) "T"
        ⟨some "u", some "all", some "S", some n⟩) = some n.toNat) ∧
    (∀ n : Int, stagesTotal (execute (some gwProbe) "T"
        ⟨some "u", some "all", some "S", some n⟩) = some n.toNat) ∧
    convTotal (execute (some gwProbe) "T"
        ⟨some "u", some "all", some "S", none⟩) = some 10 ∧
    stagesTotal (execute (some gwProbe) "T"
        ⟨some "u", some "all", some "S", none⟩) = some 10 := by
  refine ⟨?_, ?_, rfl, rfl⟩
  · intro n
    simp [execute, jsTryOut, gwProbe, convTotal, mkConvSection,
      truthyO, truthyS, pure, Except.pure, exceptBind_ok]
  · intro n
    simp [execute, jsTryOut, gwProbe, stagesTotal,
      truthyO, truthyS, pure, Except.pure, exceptBind_ok]

/-- C2: with context_type `all`, when only the profile lookup throws (the
other gateway operations succeed with arbitrary data), `execute` still
returns `success:true`; the conversations, stages and session sections are
computed normally from their own gateway data, and the profile slot holds
only the inline error marker. -/
theorem C2_partial_failure_isolation
    (g : String → Except String String)
    (cs : List Msg) (ss : List StageRec)
    (sd : List (String × List SessEntry))
    (e uid sid now : String) (lim : Int)
    (hu : uid ≠ "") (hs : sid ≠ "") :
    execute (some
        { getCurrentSessionId := g
          getConversationHistory := fun _ _ => .ok cs
          getUserProfile := fun _ => .error e
          getUserStageProgressions := fun _ _ => .ok ss
          getSessionData := fun _ _ => .ok sd })
        now ⟨some uid, some "all", some sid, some lim⟩ =
      (let rd : ResultData :=
        { user_id := uid, session_id := sid, timestamp := now
          context :=
            { conversations := some (.data (mkConvSection cs))
              profile := some (.failed "Failed to retrieve profile")
              stages := some (.data
                { current_stage := "⊙"
                  progression_notes := "Stage progression tracking active"
                  total_progressions := ss.length })
              session := some (.data (mkSessSection sid sd)) } }
      ExecOut.ok rd (generateInstructions rd)) := by
  simp [execute, jsTryOut, truthyO, truthyS, hu, hs, profileCurrentStage,
    pure, Except.pure, exceptBind_ok]

/-- C2 witness: the theorem at a concrete gateway whose profile lookup
throws while the other operations succeed with empty data. -/
theorem C2_partial_failure_isolation_witness :
    ("u" : String) ≠ "" ∧ ("S" : String) ≠ "" ∧
    execute (some
        { getCurrentSessionId := fun _ => .ok ""
          getConversationHistory := fun _ _ => .ok []
          getUserProfile := fun _ => .error "boom"
          getUserStageProgressions := fun _ _ => .ok []
          getSessionData := fun _ _ => .ok [] })
        "T" ⟨some "u", some "all", some "S", some 10⟩ =
      (let rd : ResultData :=
        { user_id := "u", session_id := "S", timestamp := "T"
          context :=
            { conversations := some (.data (mkConvSection []))
              profile := some (.failed "Failed to retrieve profile")
              stages := some (.data
                { current_stage := "⊙"
                  progression_notes := "Stage progression tracking active"
                  total_progressions := 0 })
              session := some (.data (mkSessSection "S" [])) } }
      ExecOut.ok rd (generateInstructions rd)) :=
  ⟨by decide, by decide,
   C2_partial_failure_isolation (fun _ => .ok "") [] [] [] "boom"
     "u" "S" "T" 10 (by decide) (by decide)⟩

/-- C8 counterexample: two `execute` calls with identical parameters and
an unchanged gateway, made at different clock readings, return different
results (the embedded `timestamp` differs); and the gateway's session-id
generator itself is clock-derived, so an omitted `session_id` also varies
with the clock. -/
theorem C8_idempotence_counterexample :
    execute (some
        { getCurrentSessionId := fun _ => .ok "S"
          getConversationHistory := fun _ _ => .ok []
          getUserProfile := fun _ => .ok none
          getUserStageProgressions := fun _ _ => .ok []
          getSessionData := fun _ _ => .ok [] })
        "2024-01-01T10:00:00Z" ⟨some "u", some "all", some "S", some 10⟩ ≠
      execute (some
        { getCurrentSessionId := fun _ => .ok "S"
          getConversationHistory := fun _ _ => .ok []
          getUserProfile := fun _ => .ok none
          getUserStageProgressions := fun _ _ => .ok []
          getSessionData := fun _ _ => .ok [] })
        "2024-01-01T11:00:00Z" ⟨some "u", some "all", some "S", some 10⟩ ∧
    FirebaseMemoryService.getCurrentSessionId "2024-01-01" "100" ≠
      FirebaseMemoryService.getCurrentSessionId "2024-01-01" "200" :=
  ⟨by decide, by decide⟩

/-- Helper: the tool body's clock dependence is confined to the
`timestamp` field of the result (the instructions read only the
context). -/
theorem withTimestamp_aux (sess : Except String String)
    (uid now now' : String) (C : String → Ctx) :
    withTimestamp (jsTryOut
        (sess >>= fun csid =>
          pure (ExecOut.ok
            { user_id := uid, session_id := csid, timestamp := now
              context := C csid }
            (generateInstructions
              { user_id := uid, session_id := csid, timestamp := now
                context := C csid })))
        (fun e => ExecOut.err ("Context retrieval failed: " ++ e))) now' =
      jsTryOut
        (sess >>= fun csid =>
          pure (ExecOut.ok
            { user_id := uid, session_id := csid, timestamp := now'
              context := C csid }
            (generateInstructions
              { user_id := uid, session_id := csid, timestamp := now'
                context := C csid })))
        (fun e => ExecOut.err ("Context retrieval failed: " ++ e)) := by
  cases sess with
  | error e => rfl
  | ok csid => rfl

/-- C8 (amended): `execute` retains no state and performs no writes; its
output is a deterministic function of (parameters, gateway, clock), and
its dependence on the clock is exactly the `timestamp` field embedded in
the returned data: replacing that field turns the result of a call at one
clock reading into the result of the same call at another. (When
`session_id` is omitted the session id is produced by the gateway's
clock-derived generator, an additional time dependence recorded in the
counterexample.) -/
theorem C8_clock_dependence_amended :
    ∀ svc ps now now',
      withTimestamp (execute svc now ps) now' = execute svc now' ps := by
  intro svc ps now now'
  by_cases hu : JsSem.truthyO ps.user_id = true
  · have hcond : ¬¬ (JsSem.truthyO ps.user_id = true) := not_not_intro hu
    cases svc with
    | none => simp [execute, withTimestamp, hu]
    | some gw =>
      simp only [execute]
      rw [if_neg hcond, if_neg hcond]
      by_cases hsid : JsSem.truthyO ps.session_id = true
      · rw [if_pos hsid, if_pos hsid]
        exact withTimestamp_aux _ _ _ _ _
      · rw [if_neg hsid, if_neg hsid]
        exact withTimestamp_aux _ _ _ _ _
  · simp [execute, withTimestamp, hu]

